import Mathlib

/-!
Verification development for the FabricVisualizer procedural-geometry engine
(src/unnamed/part_001, first document). The component turns five normalized
scalar parameters into a multi-layer lattice of volumetric cells with
ornamentation, colors, an animation loop and drag/zoom view controls.

Numeric values are modelled over `ℚ` (the JS sources use double-precision
floats on exact decimal literals; all claim-relevant arithmetic is exact),
except the grid-size formula which uses real exponentiation `2 ^ (mesh * 2)`
and is modelled over `ℝ`.
-/

/-- Three-component vector with rational coordinates, modelling THREE.Vector3
as used by the cell mesh builder (part_001 lines 196-242). -/
structure Vec3 where
  x : ℚ
  y : ℚ
  z : ℚ
  deriving DecidableEq, Repr

namespace Vec3

/-- Component-wise subtraction, modelling `THREE.Vector3.subVectors`. -/
def sub (a b : Vec3) : Vec3 := ⟨a.x - b.x, a.y - b.y, a.z - b.z⟩

/-- Cross product, modelling `THREE.Vector3.cross`. -/
def cross (a b : Vec3) : Vec3 :=
  ⟨a.y * b.z - a.z * b.y, a.z * b.x - a.x * b.z, a.x * b.y - a.y * b.x⟩

end Vec3

/-- Raise a vertex by `cubeSize = 1.0` in Y, as in `topY00 = bottomY00 + cubeSize`
(part_001 lines 167-171): top corners keep the bottom corner's x/z. -/
def raiseY (v : Vec3) : Vec3 := ⟨v.x, v.y + 1, v.z⟩

/-- The 8 cube vertices of one cell built from the four bottom-lattice corners
v00, v10, v01, v11, in the exact order of part_001 lines 197-208:
0..3 bottom face (v00, v10, v11, v01), 4..7 top face (same order, raised by
cubeSize = 1). -/
def cellVertices (v00 v10 v01 v11 : Vec3) : Fin 8 → Vec3 := fun i =>
  match i with
  | 0 => v00
  | 1 => v10
  | 2 => v11
  | 3 => v01
  | 4 => raiseY v00
  | 5 => raiseY v10
  | 6 => raiseY v11
  | 7 => raiseY v01

/-- The per-face normal direction assigned by the code (part_001 lines 217-242),
before `normalize` (normalization rescales by a positive factor and keeps the
direction). Faces 0 (bottom) and 1 (top) receive the constants (0,-1,0) and
(0,1,0); faces 2-5 (front, back, right, left) receive cross products of
difference vectors of their corners. -/
def faceNormalDir (vs : Fin 8 → Vec3) : Fin 6 → Vec3 := fun f =>
  match f with
  | 0 => ⟨0, -1, 0⟩
  | 1 => ⟨0, 1, 0⟩
  | 2 => Vec3.cross (Vec3.sub (vs 1) (vs 0)) (Vec3.sub (vs 4) (vs 0))
  | 3 => Vec3.cross (Vec3.sub (vs 2) (vs 3)) (Vec3.sub (vs 7) (vs 3))
  | 4 => Vec3.cross (Vec3.sub (vs 2) (vs 1)) (Vec3.sub (vs 5) (vs 1))
  | 5 => Vec3.cross (Vec3.sub (vs 3) (vs 0)) (Vec3.sub (vs 4) (vs 0))

/-- The quad corner indices of each of the six faces in cyclic order, read off
the triangle index lists of part_001 lines 245-258 (bottom [0,1,2,3],
top [4,7,6,5], front [0,4,5,1], back [2,6,7,3], right [1,5,6,2],
left [3,7,4,0]). -/
def faceQuad : Fin 6 → Fin 8 × Fin 8 × Fin 8 × Fin 8 := fun f =>
  match f with
  | 0 => (0, 1, 2, 3)
  | 1 => (4, 7, 6, 5)
  | 2 => (0, 4, 5, 1)
  | 3 => (2, 6, 7, 3)
  | 4 => (1, 5, 6, 2)
  | 5 => (3, 7, 4, 0)

/-- The edge vectors of a face: for the quad (a,b,c,d) the four edges a-b, b-c,
c-d, d-a, each in both orientations. -/
def faceEdgeVectors (vs : Fin 8 → Vec3) (f : Fin 6) : List Vec3 :=
  let q := faceQuad f
  let a := vs q.1
  let b := vs q.2.1
  let c := vs q.2.2.1
  let d := vs q.2.2.2
  [Vec3.sub b a, Vec3.sub a b, Vec3.sub c b, Vec3.sub b c,
   Vec3.sub d c, Vec3.sub c d, Vec3.sub a d, Vec3.sub d a]

/-- The flat per-vertex normal list pushed by the face loop (part_001 lines
260-273): for each face, the face's single normal is pushed six times (three
per triangle). -/
def cellNormalsList (vs : Fin 8 → Vec3) : List Vec3 :=
  (List.finRange 6).foldl
    (fun acc f =>
      acc ++ [faceNormalDir vs f, faceNormalDir vs f, faceNormalDir vs f]
          ++ [faceNormalDir vs f, faceNormalDir vs f, faceNormalDir vs f])
    []

/-! ## Layer stacking (part_001 lines 110-302)

The top-vertex lattice of a layer is populated cell by cell (z outer, x inner)
with a first-writer-wins guard on three of the four corners and an
unconditional write on the fourth. -/

/-- A partially populated top-vertex lattice: `none` models the `null`
initialization of `currentLayerTopVertices` (part_001 lines 174-182). -/
def TopGrid : Type := Nat → Nat → Option Vec3

/-- The value every cell writes for lattice node (i,j): the bottom-lattice node
with y raised by cubeSize = 1 and x/z preserved, `{ x: v.x, y: v.y + cubeSize,
z: v.z }` (part_001 lines 185-194). -/
def liftNode (bot : Nat → Nat → Vec3) (i j : Nat) : Vec3 := raiseY (bot i j)

/-- Write a node only when it is still unset, modelling the guard
`if (currentLayerTopVertices[i][j] === null)` (part_001 lines 185-193). -/
def setIfUnset (g : TopGrid) (i j : Nat) (v : Vec3) : TopGrid := fun a b =>
  if a = i ∧ b = j then (if (g i j).isSome then g i j else some v) else g a b

/-- Unconditional node write, modelling the unguarded assignment to
`currentLayerTopVertices[z + 1][x + 1]` (part_001 line 194). -/
def setAlways (g : TopGrid) (i j : Nat) (v : Vec3) : TopGrid := fun a b =>
  if a = i ∧ b = j then some v else g a b

/-- Processing one cell (x,z): its four top corners are derived from the
bottom-lattice nodes (z,x), (z,x+1), (z+1,x), (z+1,x+1) (the corners v00, v10,
v01, v11) and written to the same node indices of the top lattice; the first
three writes are guarded, the last is unconditional (part_001 lines 184-194). -/
def visitCell (bot : Nat → Nat → Vec3) (g : TopGrid) (c : Nat × Nat) : TopGrid :=
  setAlways
    (setIfUnset
      (setIfUnset
        (setIfUnset g c.2 c.1 (liftNode bot c.2 c.1))
        c.2 (c.1 + 1) (liftNode bot c.2 (c.1 + 1)))
      (c.2 + 1) c.1 (liftNode bot (c.2 + 1) c.1))
    (c.2 + 1) (c.1 + 1) (liftNode bot (c.2 + 1) (c.1 + 1))

/-- The cell visit order of the layer loop: z from 0 to gridHeight-1 (outer),
x from 0 to gridWidth-1 (inner), pairs (x, z) (part_001 lines 135-136). -/
def cellList (gw gh : Nat) : List (Nat × Nat) :=
  (List.range gh).flatMap (fun z => (List.range gw).map (fun x => (x, z)))

/-- The fully built top lattice of one layer, starting from the all-null grid
(part_001 lines 174-182) and visiting every cell in order. -/
def buildTop (bot : Nat → Nat → Vec3) (gw gh : Nat) : TopGrid :=
  (cellList gw gh).foldl (visitCell bot) (fun _ _ => none)

/-- The bottom lattice of layer k: layer 0 uses the deformed base vertex grid;
layer k+1 reads the top lattice produced while building layer k
(`currentLayerBottomVertices = currentLayerTopVertices`, part_001 lines
146-153 and 301-302). `getD` models the array read, which never actually sees
`null` (see the population theorem). -/
def bottomLattice (base : Nat → Nat → Vec3) (gw gh : Nat) : Nat → Nat → Nat → Vec3
  | 0 => base
  | k + 1 => fun i j => (buildTop (bottomLattice base gw gh k) gw gh i j).getD ⟨0, 0, 0⟩

/-- Node index offsets of the four corners v00, v10, v01, v11 of the cell at
(x,z): nodes (z,x), (z,x+1), (z+1,x), (z+1,x+1). -/
def cornerNode (x z : Nat) : Fin 4 → Nat × Nat := fun c =>
  match c with
  | 0 => (z, x)
  | 1 => (z, x + 1)
  | 2 => (z + 1, x)
  | 3 => (z + 1, x + 1)

/-- Bottom corner c of the cell at (x,z) in layer k, as read by the cell loop
(part_001 lines 140-153). -/
def cellBottomCorner (base : Nat → Nat → Vec3) (gw gh k x z : Nat) (c : Fin 4) : Vec3 :=
  bottomLattice base gw gh k (cornerNode x z c).1 (cornerNode x z c).2

/-- Top corner c of the cell at (x,z) in layer k: the matching bottom corner
raised by cubeSize = 1 in y (part_001 lines 167-171 and 203-207). -/
def cellTopCorner (base : Nat → Nat → Vec3) (gw gh k x z : Nat) (c : Fin 4) : Vec3 :=
  raiseY (cellBottomCorner base gw gh k x z c)

/-! ## Ornament selection (part_001 lines 392-591) -/

/-- The six cell faces, in the build order of the all-faces strut branch
(part_001 lines 580-585). -/
inductive Face where
  | bottom
  | top
  | front
  | back
  | right
  | left
  deriving DecidableEq, Repr

/-- Number of interior space diagonals selected from Airflow
(part_001 lines 394-400). -/
def numDiagonals (airflow : ℚ) : Nat :=
  if 33/100 ≤ airflow ∧ airflow < 66/100 then 2
  else if 66/100 ≤ airflow then 4
  else 0

/-- The four space-diagonal endpoint pairs, in order (part_001 lines 407-412):
[0,6], [1,7], [2,4], [3,5]. -/
def diagonalPairs : List (Nat × Nat) := [(0, 6), (1, 7), (2, 4), (3, 5)]

/-- The diagonal endpoint pairs actually instantiated for a given Airflow: the
loop `for (let i = 0; i < numDiagonals; i++)` takes the leading entries of
`diagonalPairs` (part_001 lines 414-426). -/
def cellDiagonals (airflow : ℚ) : List (Nat × Nat) :=
  diagonalPairs.take (numDiagonals airflow)

/-- The corner opposite a bottom corner i (0..3) through the cell's center:
bottom corners 0,1,2,3 pair with top corners 6,7,4,5. -/
def oppositeCorner (i : Nat) : Nat := 4 + (i + 2) % 4

/-- A pair of cube corner indices is a space diagonal when it joins a bottom
corner to the opposite top corner. -/
def isSpaceDiagonal (p : Nat × Nat) : Prop := p.1 < 4 ∧ p.2 = oppositeCorner p.1

instance (p : Nat × Nat) : Decidable (isSpaceDiagonal p) := by
  unfold isSpaceDiagonal; infer_instance

/-- The faces carrying an X strut pattern for a given Airflow (part_001 lines
436, 474): top and bottom on [0.34, 0.67), all six faces at and above 0.67. -/
def strutFaces (airflow : ℚ) : List Face :=
  if 34/100 ≤ airflow ∧ airflow < 67/100 then [Face.bottom, Face.top]
  else if 67/100 ≤ airflow then
    [Face.bottom, Face.top, Face.front, Face.back, Face.right, Face.left]
  else []

/-- The two corner pairs of each face's X strut (part_001 lines 440-471,
477-565, mirrored by the animation table at lines 770-777). -/
def faceStrutPairs (f : Face) : List (Nat × Nat) :=
  match f with
  | Face.bottom => [(0, 2), (1, 3)]
  | Face.top => [(4, 6), (5, 7)]
  | Face.front => [(0, 5), (1, 4)]
  | Face.back => [(2, 7), (3, 6)]
  | Face.right => [(1, 6), (2, 5)]
  | Face.left => [(3, 4), (0, 7)]

/-! ## Cell colors (part_001 lines 304-349) -/

/-- Truncating division result as used by the JS `%` operator: `a % b` is
`a - b * trunc(a / b)` (truncation toward zero). -/
def truncQ (q : ℚ) : ℤ := if 0 ≤ q then ⌊q⌋ else ⌈q⌉

/-- JS remainder on rationals: `a % b = a - b * trunc(a / b)`. -/
def jsMod (a b : ℚ) : ℚ := a - b * (truncQ (a / b) : ℚ)

/-- The position-weighted sum feeding the hue: `(x + z) * 0.6 + layer *
max(gridWidth, gridHeight)` (part_001 lines 309-312). -/
def weightedSum (x z layer gw gh : Nat) : ℚ :=
  ((x : ℚ) + (z : ℚ)) * (6/10) + (layer : ℚ) * ((max gw gh : Nat) : ℚ)

/-- The per-cell hue in degrees: the weighted sum times 10, modulo 360
(part_001 lines 315-320). -/
def hueOf (x z layer gw gh : Nat) : ℚ :=
  jsMod (weightedSum x z layer gw gh * 10) 360

/-- An HSL triple as passed to `THREE.Color.setHSL` (h scaled into [0,1]). -/
structure HSL where
  h : ℚ
  s : ℚ
  l : ℚ
  deriving DecidableEq, Repr

/-- Fill color of a cell: hue from the weighted sum, saturation 0.6,
lightness 0.5 (getCubeColor, part_001 lines 306-328). -/
def getCubeColor (x z layer gw gh : Nat) : HSL :=
  ⟨hueOf x z layer gw gh / 360, 6/10, 5/10⟩

/-- Outline color of a cell: same hue and saturation, lightness 0.3
(getOutlineColor, part_001 lines 331-346). -/
def getOutlineColor (x z layer gw gh : Nat) : HSL :=
  ⟨hueOf x z layer gw gh / 360, 6/10, 3/10⟩

/-! ## Per-cell ornament objects (part_001 lines 356-593) -/

/-- A line material: HSL color plus opacity, modelling
`THREE.LineBasicMaterial({ color, opacity, transparent })`. -/
structure Material where
  color : HSL
  opacity : ℚ
  deriving DecidableEq, Repr

/-- A line object: the material it was constructed with and its two
endpoints. -/
structure LineObj where
  material : Material
  pa : Vec3
  pb : Vec3
  deriving DecidableEq, Repr

/-- Look up a cube corner by its numeric index. -/
def vertexAt (vs : Fin 8 → Vec3) (n : Nat) : Vec3 := vs ⟨n % 8, Nat.mod_lt n (by norm_num)⟩

/-- Everything line-like built for one cell: the wireframe outline's material,
the interior diagonal lines, and the face X strut lines. -/
structure CellLines where
  outlineMaterial : Material
  diagonals : List LineObj
  faceStruts : List LineObj
  deriving DecidableEq, Repr

/-- Build of one cell's outline material and ornaments (part_001 lines
349-591): a single `outlineMaterial` is constructed from `getOutlineColor` and
`baseOutlineOpacity = 0.5 + airflow * 0.4`, and the very same material is
passed to the outline LineSegments, every diagonal `THREE.Line`, and every
face X `THREE.Line`. -/
def buildCellLines (vs : Fin 8 → Vec3) (x z layer gw gh : Nat) (airflow : ℚ) : CellLines :=
  let outlineMat : Material :=
    ⟨getOutlineColor x z layer gw gh, 1/2 + airflow * (2/5)⟩
  { outlineMaterial := outlineMat
    diagonals :=
      (cellDiagonals airflow).map (fun p => ⟨outlineMat, vertexAt vs p.1, vertexAt vs p.2⟩)
    faceStruts :=
      (strutFaces airflow).flatMap (fun f =>
        (faceStrutPairs f).map (fun p => ⟨outlineMat, vertexAt vs p.1, vertexAt vs p.2⟩)) }

/-! ## View controls (part_001 lines 598-641) -/

/-- The mutable view-control state: drag flag, drag anchor, accumulated
rotations, zoom level (part_001 lines 599-604). -/
structure ViewState where
  mouseDown : Bool
  mouseX : ℚ
  mouseY : ℚ
  rotationX : ℚ
  rotationY : ℚ
  zoomLevel : ℚ
  deriving DecidableEq, Repr

/-- The view state as freshly declared by the effect body: no drag, zero
anchors, zero rotation, zoom 1.0 (part_001 lines 599-604). -/
def initViewState : ViewState :=
  { mouseDown := false, mouseX := 0, mouseY := 0
    rotationX := 0, rotationY := 0, zoomLevel := 1 }

/-- Pointer-down handler: records the anchor and enters dragging
(part_001 lines 611-615). -/
def onMouseDown (v : ViewState) (cx cy : ℚ) : ViewState :=
  { v with mouseDown := true, mouseX := cx, mouseY := cy }

/-- Pointer-move handler: while dragging, accumulates rotation by 0.01 per
pixel and updates the anchor; otherwise a no-op (part_001 lines 617-625). -/
def onMouseMove (v : ViewState) (cx cy : ℚ) : ViewState :=
  if v.mouseDown then
    { v with rotationY := v.rotationY + (cx - v.mouseX) * (1/100)
             rotationX := v.rotationX + (cy - v.mouseY) * (1/100)
             mouseX := cx, mouseY := cy }
  else v

/-- Pointer-up / pointer-leave handler: leaves dragging
(part_001 lines 627-629). -/
def onMouseUp (v : ViewState) : ViewState := { v with mouseDown := false }

/-- Wheel handler: `zoomLevel = max(minZoom, min(maxZoom, zoomLevel -
deltaY * 0.001))` with minZoom = 0.3, maxZoom = 3.0
(part_001 lines 604-606 and 631-635). -/
def onWheel (v : ViewState) (deltaY : ℚ) : ViewState :=
  { v with zoomLevel := max (3/10) (min 3 (v.zoomLevel - deltaY * (1/1000))) }

/-- Scene rebuild effect on the view state: the effect body re-runs whenever a
new ParameterSet arrives (dependency `[parameters]`, part_001 line 857) and
re-declares `rotationX = 0`, `rotationY = 0`, `zoomLevel = 1.0` as fresh local
variables (part_001 lines 599-604), so the post-rebuild view state is the
initial one regardless of the prior state. -/
def rebuildView (_v : ViewState) : ViewState := initViewState

/-- Zoom level after a sequence of wheel events starting from the fresh view
state (zoomLevel = 1.0). -/
def zoomAfter (deltas : List ℚ) : ℚ :=
  (deltas.foldl onWheel initViewState).zoomLevel

/-! ## Parameter intake and derived configuration (part_001 lines 31-44, 349) -/

/-- The five-field parameter record received from the text-analysis step;
`none` models an absent (`undefined`/`null`) field, which the `??` operator
replaces by 0.5 (part_001 lines 32-36). -/
structure ParamSet where
  Fit : Option ℚ
  Mesh : Option ℚ
  Thickness : Option ℚ
  Airflow : Option ℚ
  Support : Option ℚ
  deriving DecidableEq, Repr

/-- Grid resolution from the Mesh value: `Math.round(9 * Math.pow(2, mesh * 2))`
(part_001 line 40). Real exponentiation keeps the formula exact for every
mesh value. -/
noncomputable def gridSizeOf (mesh : ℝ) : ℤ :=
  round ((9 : ℝ) * (2 : ℝ) ^ (mesh * 2))

/-- The derived geometry configuration (part_001 lines 39-44 and 349). -/
structure GeomConfig where
  scale : ℚ
  gridSize : ℤ
  layerCount : ℤ
  deformationStrength : ℚ
  outlineOpacity : ℚ

/-- Parameter mapping: defaults each absent value to 0.5, then derives
scale = 0.8 + fit*0.4, gridSize = round(9 * 2^(mesh*2)),
layerCount = round(1 + thickness*4), deformationStrength = (1 - support)*0.8,
outlineOpacity = 0.5 + airflow*0.4 (part_001 lines 32-44 and 349). -/
noncomputable def geomConfig (p : ParamSet) : GeomConfig :=
  let fit := p.Fit.getD (1/2)
  let mesh := p.Mesh.getD (1/2)
  let thickness := p.Thickness.getD (1/2)
  let airflow := p.Airflow.getD (1/2)
  let support := p.Support.getD (1/2)
  { scale := 4/5 + fit * (2/5)
    gridSize := gridSizeOf (mesh : ℝ)
    layerCount := round ((1 : ℚ) + thickness * 4)
    deformationStrength := (1 - support) * (4/5)
    outlineOpacity := 1/2 + airflow * (2/5) }

/-- Check used by the C2 counterexample: a nonzero vector c satisfies
`normalize c = (0,-1,0)` exactly when c is a positive multiple of (0,-1,0),
i.e. c.x = 0, c.z = 0 and c.y < 0 (and `normalize` maps the zero vector to
itself, never to (0,-1,0)). This scans every ordered pair of bottom-face edge
vectors and reports true when no cross product of such a pair can normalize to
(0,-1,0). -/
def noBottomEdgeCrossDown (vs : Fin 8 → Vec3) : Bool :=
  (faceEdgeVectors vs 0).all (fun u =>
    (faceEdgeVectors vs 0).all (fun w =>
      !(decide ((Vec3.cross u w).x = 0) && decide ((Vec3.cross u w).z = 0)
        && decide ((Vec3.cross u w).y < 0))))

/-- Invariant of the top-lattice build: every populated node already holds the
lifted bottom node, whichever cell wrote it. -/
def GridFaithful (bot : Nat → Nat → Vec3) (g : TopGrid) : Prop :=
  ∀ i j v, g i j = some v → v = liftNode bot i j

/-- Sample base lattice used by the concrete witnesses. -/
def sampleBase : Nat → Nat → Vec3 := fun i j => ⟨(j : ℚ), 0, (i : ℚ)⟩

/-! ## Theorems -/

/-- Helper: one wheel event always lands the zoom level inside
[minZoom, maxZoom] = [0.3, 3.0]. -/
lemma onWheel_zoom_mem (v : ViewState) (d : ℚ) :
    3/10 ≤ (onWheel v d).zoomLevel ∧ (onWheel v d).zoomLevel ≤ 3 := by
  unfold onWheel
  refine ⟨le_max_left _ _, ?_⟩
  simp only
  exact max_le (by norm_num) (min_le_left _ _)

/-- Helper: folding wheel events from a state whose zoom is in range keeps the
zoom in range. -/
lemma foldl_onWheel_zoom_mem (ds : List ℚ) (v : ViewState)
    (h1 : 3/10 ≤ v.zoomLevel) (h2 : v.zoomLevel ≤ 3) :
    3/10 ≤ (ds.foldl onWheel v).zoomLevel ∧ (ds.foldl onWheel v).zoomLevel ≤ 3 := by
  induction ds generalizing v with
  | nil => exact ⟨h1, h2⟩
  | cons d ds ih =>
    simp only [List.foldl_cons]
    exact ih (onWheel v d) (onWheel_zoom_mem v d).1 (onWheel_zoom_mem v d).2

/-- C5. Zoom clamp invariant: every wheel event sets the new zoom to
clamp(previous - delta*0.001, 0.3, 3.0), and starting from zoomLevel = 1.0,
after any finite sequence of wheel events the zoom level remains within
[0.3, 3.0]. -/
theorem zoom_clamp_invariant (ds : List ℚ) :
    (∀ (v : ViewState) (d : ℚ),
      (onWheel v d).zoomLevel = max (3/10) (min 3 (v.zoomLevel - d * (1/1000)))) ∧
    3/10 ≤ zoomAfter ds ∧ zoomAfter ds ≤ 3 := by
  refine ⟨fun v d => rfl, ?_⟩
  exact foldl_onWheel_zoom_mem ds initViewState (by norm_num [initViewState]) (by norm_num [initViewState])

/-- C1 counterexample. View state does not persist across rebuilds: after one
wheel event (deltaY = 1000) the zoom level is 0.3, but immediately after the
rebuild triggered by a new ParameterSet it is back to 1.0 — the effect body
re-declares rotationX, rotationY, zoomLevel as fresh locals. -/
theorem view_state_reset_on_rebuild_cex :
    (rebuildView (onWheel initViewState 1000)).zoomLevel ≠
      (onWheel initViewState 1000).zoomLevel := by
  norm_num [rebuildView, initViewState, onWheel, min_def, max_def]

/-- C1 amended. Rotation and zoom do not persist across rebuilds: every
rebuild resets rotationX and rotationY to 0 and zoomLevel to 1.0, whatever
their prior values. Within one scene generation they are indeed user-driven:
pointer-down and pointer-up leave rotation and zoom unchanged, a wheel event
leaves rotation unchanged, pointer-move leaves zoom unchanged, and
pointer-move outside a drag changes nothing at all. -/
theorem view_state_rebuild_and_events (v : ViewState) (cx cy d : ℚ) :
    (rebuildView v).rotationX = 0 ∧ (rebuildView v).rotationY = 0 ∧
    (rebuildView v).zoomLevel = 1 ∧
    (onMouseDown v cx cy).rotationX = v.rotationX ∧
    (onMouseDown v cx cy).rotationY = v.rotationY ∧
    (onMouseDown v cx cy).zoomLevel = v.zoomLevel ∧
    (onMouseUp v).rotationX = v.rotationX ∧
    (onMouseUp v).rotationY = v.rotationY ∧
    (onMouseUp v).zoomLevel = v.zoomLevel ∧
    (onWheel v d).rotationX = v.rotationX ∧
    (onWheel v d).rotationY = v.rotationY ∧
    (onMouseMove v cx cy).zoomLevel = v.zoomLevel ∧
    (v.mouseDown = false → onMouseMove v cx cy = v) := by
  refine ⟨rfl, rfl, rfl, rfl, rfl, rfl, rfl, rfl, rfl, rfl, rfl, ?_, ?_⟩
  · unfold onMouseMove
    split <;> rfl
  · intro h
    unfold onMouseMove
    simp [h]

/-- C1 amended, witness: the amended theorem applied at the initial view state
with a concrete pointer position. -/
theorem view_state_rebuild_and_events_witness :
    initViewState.mouseDown = false ∧ onMouseMove initViewState 5 7 = initViewState :=
  ⟨rfl, (view_state_rebuild_and_events initViewState 5 7 0).2.2.2.2.2.2.2.2.2.2.2.2 rfl⟩

/-- C6. Grid size: for every Mesh value, gridSize = round(9 * 2^(2*Mesh)); in
particular Mesh = 0, 0.5, 1 yield exactly 9, 18, 36. -/
theorem grid_size_formula :
    (∀ m : ℝ, gridSizeOf m = round ((9 : ℝ) * (2 : ℝ) ^ (2 * m))) ∧
    gridSizeOf 0 = 9 ∧ gridSizeOf (1/2) = 18 ∧ gridSizeOf 1 = 36 := by
  refine ⟨fun m => by rw [gridSizeOf, mul_comm m 2], ?_, ?_, ?_⟩
  · have h : ((0 : ℝ) * 2) = 0 := by norm_num
    rw [gridSizeOf, h, Real.rpow_zero]
    norm_num
  · have h : ((1/2 : ℝ) * 2) = 1 := by norm_num
    rw [gridSizeOf, h, Real.rpow_one]
    norm_num
  · have h : ((1 : ℝ) * 2) = ((2 : ℕ) : ℝ) := by norm_num
    rw [gridSizeOf, h, Real.rpow_natCast]
    norm_num

/-- C7. Parameter intake never fails and applies exactly one transformation:
each of the five parameters is replaced by 0.5 precisely when absent
(undefined/null, modelled by `none`), and every supplied value — including
out-of-range ones — is used as-is with no clamping; the derived configuration
is a pure function of the five values (the embedding is a total function, so
determinism and absence of side effects and failure are structural). The
out-of-range conjuncts exhibit the absence of clamping: Fit = 2 gives
scale 1.6 > 1.2, Support = -1 gives deformationStrength 1.6 > 0.8,
Airflow = 2 gives outlineOpacity 1.3 > 0.9. -/
theorem parameter_intake_defaults :
    (∀ f m t a s : Option ℚ,
      geomConfig ⟨f, m, t, a, s⟩ =
        geomConfig ⟨some (f.getD (1/2)), some (m.getD (1/2)), some (t.getD (1/2)),
                    some (a.getD (1/2)), some (s.getD (1/2))⟩) ∧
    (geomConfig ⟨none, none, none, none, none⟩ =
      geomConfig ⟨some (1/2), some (1/2), some (1/2), some (1/2), some (1/2)⟩) ∧
    (∀ v : ℚ, (geomConfig ⟨some v, none, none, none, none⟩).scale = 4/5 + v * (2/5)) ∧
    (∀ v : ℚ, (geomConfig ⟨none, none, none, none, some v⟩).deformationStrength = (1 - v) * (4/5)) ∧
    (∀ v : ℚ, (geomConfig ⟨none, none, none, some v, none⟩).outlineOpacity = 1/2 + v * (2/5)) ∧
    (geomConfig ⟨some 2, none, none, none, none⟩).scale = 8/5 ∧
    (geomConfig ⟨none, none, none, none, some (-1)⟩).deformationStrength = 8/5 ∧
    (geomConfig ⟨none, none, none, some 2, none⟩).outlineOpacity = 13/10 := by
  refine ⟨fun f m t a s => rfl, rfl, fun v => rfl, fun v => rfl, fun v => rfl, ?_, ?_, ?_⟩
  · show (4/5 : ℚ) + 2 * (2/5) = 8/5
    norm_num
  · show ((1 : ℚ) - (-1)) * (4/5) = 8/5
    norm_num
  · show (1/2 : ℚ) + 2 * (2/5) = 13/10
    norm_num

/-- C4. Ornament selection is a function of Airflow alone, banded with
deliberately offset thresholds: 0 interior diagonals on [0, 0.33), exactly the
2 leading space diagonals on [0.33, 0.66), all 4 space diagonals on [0.66, 1];
no face X struts below 0.34, struts on exactly the bottom and top faces on
[0.34, 0.67), and on all 6 faces from 0.67 on. -/
theorem ornament_bands (a : ℚ) :
    ((0 ≤ a ∧ a < 33/100) → cellDiagonals a = []) ∧
    ((33/100 ≤ a ∧ a < 66/100) →
      (cellDiagonals a).length = 2 ∧ (∀ p ∈ cellDiagonals a, isSpaceDiagonal p)) ∧
    ((66/100 ≤ a ∧ a ≤ 1) →
      cellDiagonals a = diagonalPairs ∧ (∀ p ∈ cellDiagonals a, isSpaceDiagonal p)) ∧
    ((0 ≤ a ∧ a < 34/100) → strutFaces a = []) ∧
    ((34/100 ≤ a ∧ a < 67/100) → strutFaces a = [Face.bottom, Face.top]) ∧
    (67/100 ≤ a →
      strutFaces a = [Face.bottom, Face.top, Face.front, Face.back, Face.right, Face.left]) := by
  refine ⟨?_, ?_, ?_, ?_, ?_, ?_⟩
  · rintro ⟨h0, h1⟩
    have hn : numDiagonals a = 0 := by
      unfold numDiagonals
      rw [if_neg (by rintro ⟨h2, _⟩; linarith), if_neg (by intro h2; linarith)]
    simp [cellDiagonals, hn]
  · rintro ⟨h0, h1⟩
    have hn : numDiagonals a = 2 := by
      unfold numDiagonals
      rw [if_pos ⟨h0, h1⟩]
    refine ⟨by simp [cellDiagonals, hn, diagonalPairs], ?_⟩
    intro p hp
    rw [cellDiagonals, hn] at hp
    simp [diagonalPairs] at hp
    rcases hp with rfl | rfl <;> decide
  · rintro ⟨h0, h1⟩
    have hn : numDiagonals a = 4 := by
      unfold numDiagonals
      rw [if_neg (by rintro ⟨_, h2⟩; linarith), if_pos h0]
    refine ⟨by simp [cellDiagonals, hn, diagonalPairs], ?_⟩
    intro p hp
    rw [cellDiagonals, hn] at hp
    simp [diagonalPairs] at hp
    rcases hp with rfl | rfl | rfl | rfl <;> decide
  · rintro ⟨h0, h1⟩
    unfold strutFaces
    rw [if_neg (by rintro ⟨h2, _⟩; linarith), if_neg (by intro h2; linarith)]
  · rintro ⟨h0, h1⟩
    unfold strutFaces
    rw [if_pos ⟨h0, h1⟩]
  · intro h0
    unfold strutFaces
    rw [if_neg (by rintro ⟨_, h2⟩; linarith), if_pos h0]

/-- C4 witness: the banded theorem instantiated at the three sample Airflow
values 0.2, 0.5 and 0.9 named by the claim. -/
theorem ornament_bands_witness :
    cellDiagonals (2/10) = [] ∧ strutFaces (2/10) = [] ∧
    (cellDiagonals (5/10)).length = 2 ∧ strutFaces (5/10) = [Face.bottom, Face.top] ∧
    cellDiagonals (9/10) = diagonalPairs ∧
    strutFaces (9/10) = [Face.bottom, Face.top, Face.front, Face.back, Face.right, Face.left] :=
  ⟨(ornament_bands (2/10)).1 ⟨by norm_num, by norm_num⟩,
   (ornament_bands (2/10)).2.2.2.1 ⟨by norm_num, by norm_num⟩,
   ((ornament_bands (5/10)).2.1 ⟨by norm_num, by norm_num⟩).1,
   (ornament_bands (5/10)).2.2.2.2.1 ⟨by norm_num, by norm_num⟩,
   ((ornament_bands (9/10)).2.2.1 ⟨by norm_num, by norm_num⟩).1,
   (ornament_bands (9/10)).2.2.2.2.2 (by norm_num)⟩

/-- Helper: on nonnegative arguments the JS remainder is the floor-based
remainder. -/
lemma jsMod_of_nonneg (a : ℚ) (b : ℚ) (ha : 0 ≤ a) (hb : 0 < b) :
    jsMod a b = a - b * (⌊a / b⌋ : ℚ) := by
  unfold jsMod truncQ
  rw [if_pos (by positivity)]

/-- Helper: the JS remainder by a positive modulus is invariant under shifting
the (nonnegative) argument by integer multiples of the modulus. -/
lemma jsMod_add_int_mul (a b : ℚ) (k : ℤ) (ha : 0 ≤ a) (hb : 0 < b)
    (hak : 0 ≤ a + b * k) : jsMod (a + b * k) b = jsMod a b := by
  rw [jsMod_of_nonneg _ _ ha hb, jsMod_of_nonneg _ _ hak hb]
  have hdiv : (a + b * k) / b = a / b + (k : ℚ) := by
    field_simp
    ring
  rw [hdiv, Int.floor_add_int]
  push_cast
  ring

/-- Helper: the weighted hue sum of natural cell coordinates is nonnegative. -/
lemma weightedSum_nonneg (x z layer gw gh : Nat) : 0 ≤ weightedSum x z layer gw gh := by
  unfold weightedSum
  positivity

/-- Helper: cells whose weighted sums are congruent modulo 36 share the same
hue. -/
lemma hueOf_congr (x z layer xq zq lq gw gh : Nat) (k : ℤ)
    (h : weightedSum x z layer gw gh - weightedSum xq zq lq gw gh = 36 * k) :
    hueOf x z layer gw gh = hueOf xq zq lq gw gh := by
  unfold hueOf
  have h10 : weightedSum x z layer gw gh * 10 =
      weightedSum xq zq lq gw gh * 10 + 360 * (k : ℚ) := by linarith
  rw [h10]
  exact jsMod_add_int_mul _ 360 k
    (mul_nonneg (weightedSum_nonneg xq zq lq gw gh) (by norm_num))
    (by norm_num)
    (by rw [← h10]; exact mul_nonneg (weightedSum_nonneg x z layer gw gh) (by norm_num))

/-- C8. Color periodicity: whenever the weighted sums
(x+z)*0.6 + layer*max(gridWidth, gridHeight) of two cell coordinates are
congruent modulo 36, the fill hues agree and the outline hues agree; the
outline always shares the fill's hue and saturation (0.6) at lightness 0.3
versus the fill's 0.5. -/
theorem color_periodicity (x z layer xq zq lq gw gh : Nat) (k : ℤ)
    (h : weightedSum x z layer gw gh - weightedSum xq zq lq gw gh = 36 * k) :
    (getCubeColor x z layer gw gh).h = (getCubeColor xq zq lq gw gh).h ∧
    (getOutlineColor x z layer gw gh).h = (getOutlineColor xq zq lq gw gh).h ∧
    (getOutlineColor x z layer gw gh).h = (getCubeColor x z layer gw gh).h ∧
    (getOutlineColor x z layer gw gh).s = (getCubeColor x z layer gw gh).s ∧
    (getCubeColor x z layer gw gh).s = 6/10 ∧
    (getCubeColor x z layer gw gh).l = 1/2 ∧
    (getOutlineColor x z layer gw gh).l = 3/10 := by
  have hh := hueOf_congr x z layer xq zq lq gw gh k h
  exact ⟨by simp [getCubeColor, hh], by simp [getOutlineColor, hh], rfl, rfl, rfl,
    by norm_num [getCubeColor], by norm_num [getOutlineColor]⟩

/-- C8 witness: the periodicity theorem applied to the concrete coordinates
(60,0,0) and (0,0,0) on a 9x9 grid, whose weighted sums are 36 and 0. -/
theorem color_periodicity_witness :
    weightedSum 60 0 0 9 9 - weightedSum 0 0 0 9 9 = 36 * (1 : ℤ) ∧
    (getCubeColor 60 0 0 9 9).h = (getCubeColor 0 0 0 9 9).h :=
  ⟨by norm_num [weightedSum], (color_periodicity 60 0 0 0 0 0 9 9 1 (by norm_num [weightedSum])).1⟩

/-- C10. Every interior diagonal strut and every face X strut of a cell is
created with the very same material value as the cell's wireframe outline, so
all ornaments render with the outline color (lightness 0.3, same hue and
saturation as the fill) and opacity 0.5 + Airflow * 0.4. -/
theorem ornaments_use_outline_material (vs : Fin 8 → Vec3) (x z layer gw gh : Nat)
    (airflow : ℚ) :
    (∀ l ∈ (buildCellLines vs x z layer gw gh airflow).diagonals,
      l.material = (buildCellLines vs x z layer gw gh airflow).outlineMaterial) ∧
    (∀ l ∈ (buildCellLines vs x z layer gw gh airflow).faceStruts,
      l.material = (buildCellLines vs x z layer gw gh airflow).outlineMaterial) ∧
    (buildCellLines vs x z layer gw gh airflow).outlineMaterial.color =
      getOutlineColor x z layer gw gh ∧
    (buildCellLines vs x z layer gw gh airflow).outlineMaterial.color.l = 3/10 ∧
    (buildCellLines vs x z layer gw gh airflow).outlineMaterial.color.h =
      (getCubeColor x z layer gw gh).h ∧
    (buildCellLines vs x z layer gw gh airflow).outlineMaterial.color.s =
      (getCubeColor x z layer gw gh).s ∧
    (buildCellLines vs x z layer gw gh airflow).outlineMaterial.opacity =
      1/2 + airflow * (2/5) := by
  refine ⟨?_, ?_, rfl, by norm_num [buildCellLines, getOutlineColor], rfl, rfl, rfl⟩
  · intro l hl
    simp only [buildCellLines, List.mem_map] at hl
    obtain ⟨p, hp, rfl⟩ := hl
    rfl
  · intro l hl
    simp only [buildCellLines, List.mem_flatMap, List.mem_map] at hl
    obtain ⟨f, hf, p, hp, rfl⟩ := hl
    rfl

/-- C10 witness: the shared-material theorem applied to a concrete cell at
airflow 0.5, where the first interior diagonal exists and carries the
outline's material (opacity 0.5 + 0.5*0.4 = 0.7). -/
theorem ornaments_use_outline_material_witness :
    (⟨⟨getOutlineColor 0 0 0 9 9, 7/10⟩, ⟨0, 0, 0⟩, ⟨1, 1, 1⟩⟩ : LineObj) ∈
      (buildCellLines (cellVertices ⟨0, 0, 0⟩ ⟨1, 0, 0⟩ ⟨0, 0, 1⟩ ⟨1, 0, 1⟩)
        0 0 0 9 9 (1/2)).diagonals ∧
    (⟨⟨getOutlineColor 0 0 0 9 9, 7/10⟩, ⟨0, 0, 0⟩, ⟨1, 1, 1⟩⟩ : LineObj).material =
      (buildCellLines (cellVertices ⟨0, 0, 0⟩ ⟨1, 0, 0⟩ ⟨0, 0, 1⟩ ⟨1, 0, 1⟩)
        0 0 0 9 9 (1/2)).outlineMaterial := by
  have hm : (⟨⟨getOutlineColor 0 0 0 9 9, 7/10⟩, ⟨0, 0, 0⟩, ⟨1, 1, 1⟩⟩ : LineObj) ∈
      (buildCellLines (cellVertices ⟨0, 0, 0⟩ ⟨1, 0, 0⟩ ⟨0, 0, 1⟩ ⟨1, 0, 1⟩)
        0 0 0 9 9 (1/2)).diagonals := by
    norm_num [buildCellLines, cellDiagonals, numDiagonals, diagonalPairs, vertexAt,
      cellVertices, raiseY, getOutlineColor, hueOf, weightedSum, jsMod, truncQ]
  exact ⟨hm,
    (ornaments_use_outline_material (cellVertices ⟨0, 0, 0⟩ ⟨1, 0, 0⟩ ⟨0, 0, 1⟩ ⟨1, 0, 1⟩)
      0 0 0 9 9 (1/2)).1 _ hm⟩

/-- C2 counterexample. The claim that each of the six faces gets its normal
from the cross product of two of its edge vectors fails on the bottom face:
for the cell whose bottom corners are v00 = (0,0,0), v10 = (1,1,0),
v01 = (0,0,1), v11 = (1,1,1) (a tilted but planar bottom face lying in the
plane y = x, as produced by a deformed base lattice), the code assigns the
constant normal (0,-1,0) to the bottom face, yet no cross product of two
bottom-face edge vectors normalizes to (0,-1,0) — every such cross product is
a multiple of (1,-1,0). -/
theorem face_normal_bottom_cex :
    faceNormalDir (cellVertices ⟨0, 0, 0⟩ ⟨1, 1, 0⟩ ⟨0, 0, 1⟩ ⟨1, 1, 1⟩) 0 = ⟨0, -1, 0⟩ ∧
    noBottomEdgeCrossDown (cellVertices ⟨0, 0, 0⟩ ⟨1, 1, 0⟩ ⟨0, 0, 1⟩ ⟨1, 1, 1⟩) = true := by
  refine ⟨rfl, ?_⟩
  norm_num [noBottomEdgeCrossDown, faceEdgeVectors, faceQuad, cellVertices, Vec3.cross,
    Vec3.sub, raiseY, List.all]

/-- C2 amended. Each of the four side faces (front, back, right, left) is
assigned a single flat normal computed as the (normalized) cross product of
two edge vectors of that face; the bottom and top faces are instead assigned
the constant normals (0,-1,0) and (0,1,0) regardless of their actual
orientation; and every face is flat-shaded: the normal buffer holds the same
single normal six times per face (once per triangle corner), never a
vertex-averaged normal. -/
theorem face_normal_rule (v00 v10 v01 v11 : Vec3) :
    (faceNormalDir (cellVertices v00 v10 v01 v11) 2 =
        Vec3.cross (Vec3.sub (cellVertices v00 v10 v01 v11 1) (cellVertices v00 v10 v01 v11 0))
          (Vec3.sub (cellVertices v00 v10 v01 v11 4) (cellVertices v00 v10 v01 v11 0)) ∧
      Vec3.sub (cellVertices v00 v10 v01 v11 1) (cellVertices v00 v10 v01 v11 0) ∈
        faceEdgeVectors (cellVertices v00 v10 v01 v11) 2 ∧
      Vec3.sub (cellVertices v00 v10 v01 v11 4) (cellVertices v00 v10 v01 v11 0) ∈
        faceEdgeVectors (cellVertices v00 v10 v01 v11) 2) ∧
    (faceNormalDir (cellVertices v00 v10 v01 v11) 3 =
        Vec3.cross (Vec3.sub (cellVertices v00 v10 v01 v11 2) (cellVertices v00 v10 v01 v11 3))
          (Vec3.sub (cellVertices v00 v10 v01 v11 7) (cellVertices v00 v10 v01 v11 3)) ∧
      Vec3.sub (cellVertices v00 v10 v01 v11 2) (cellVertices v00 v10 v01 v11 3) ∈
        faceEdgeVectors (cellVertices v00 v10 v01 v11) 3 ∧
      Vec3.sub (cellVertices v00 v10 v01 v11 7) (cellVertices v00 v10 v01 v11 3) ∈
        faceEdgeVectors (cellVertices v00 v10 v01 v11) 3) ∧
    (faceNormalDir (cellVertices v00 v10 v01 v11) 4 =
        Vec3.cross (Vec3.sub (cellVertices v00 v10 v01 v11 2) (cellVertices v00 v10 v01 v11 1))
          (Vec3.sub (cellVertices v00 v10 v01 v11 5) (cellVertices v00 v10 v01 v11 1)) ∧
      Vec3.sub (cellVertices v00 v10 v01 v11 2) (cellVertices v00 v10 v01 v11 1) ∈
        faceEdgeVectors (cellVertices v00 v10 v01 v11) 4 ∧
      Vec3.sub (cellVertices v00 v10 v01 v11 5) (cellVertices v00 v10 v01 v11 1) ∈
        faceEdgeVectors (cellVertices v00 v10 v01 v11) 4) ∧
    (faceNormalDir (cellVertices v00 v10 v01 v11) 5 =
        Vec3.cross (Vec3.sub (cellVertices v00 v10 v01 v11 3) (cellVertices v00 v10 v01 v11 0))
          (Vec3.sub (cellVertices v00 v10 v01 v11 4) (cellVertices v00 v10 v01 v11 0)) ∧
      Vec3.sub (cellVertices v00 v10 v01 v11 3) (cellVertices v00 v10 v01 v11 0) ∈
        faceEdgeVectors (cellVertices v00 v10 v01 v11) 5 ∧
      Vec3.sub (cellVertices v00 v10 v01 v11 4) (cellVertices v00 v10 v01 v11 0) ∈
        faceEdgeVectors (cellVertices v00 v10 v01 v11) 5) ∧
    faceNormalDir (cellVertices v00 v10 v01 v11) 0 = ⟨0, -1, 0⟩ ∧
    faceNormalDir (cellVertices v00 v10 v01 v11) 1 = ⟨0, 1, 0⟩ ∧
    cellNormalsList (cellVertices v00 v10 v01 v11) =
      (List.finRange 6).flatMap
        (fun f => List.replicate 6 (faceNormalDir (cellVertices v00 v10 v01 v11) f)) := by
  refine ⟨⟨rfl, ?_, ?_⟩, ⟨rfl, ?_, ?_⟩, ⟨rfl, ?_, ?_⟩, ⟨rfl, ?_, ?_⟩, rfl, rfl, rfl⟩ <;>
    simp [faceEdgeVectors, faceQuad]

/-- Helper: a guarded write of the lifted node preserves the invariant. -/
lemma gridFaithful_setIfUnset (bot : Nat → Nat → Vec3) (g : TopGrid) (i j : Nat)
    (h : GridFaithful bot g) :
    GridFaithful bot (setIfUnset g i j (liftNode bot i j)) := by
  intro a b v hv
  simp only [setIfUnset] at hv
  by_cases hab : a = i ∧ b = j
  · rw [if_pos hab] at hv
    obtain ⟨rfl, rfl⟩ := hab
    by_cases hs : (g a b).isSome
    · rw [if_pos hs] at hv
      exact h a b v hv
    · rw [if_neg hs] at hv
      injection hv with hv2
      exact hv2.symm
  · rw [if_neg hab] at hv
    exact h a b v hv

/-- Helper: an unconditional write of the lifted node preserves the
invariant. -/
lemma gridFaithful_setAlways (bot : Nat → Nat → Vec3) (g : TopGrid) (i j : Nat)
    (h : GridFaithful bot g) :
    GridFaithful bot (setAlways g i j (liftNode bot i j)) := by
  intro a b v hv
  simp only [setAlways] at hv
  by_cases hab : a = i ∧ b = j
  · rw [if_pos hab] at hv
    obtain ⟨rfl, rfl⟩ := hab
    injection hv with hv2
    exact hv2.symm
  · rw [if_neg hab] at hv
    exact h a b v hv

/-- Helper: visiting one cell preserves the invariant. -/
lemma gridFaithful_visitCell (bot : Nat → Nat → Vec3) (g : TopGrid) (c : Nat × Nat)
    (h : GridFaithful bot g) : GridFaithful bot (visitCell bot g c) := by
  unfold visitCell
  exact gridFaithful_setAlways bot _ _ _
    (gridFaithful_setIfUnset bot _ _ _
      (gridFaithful_setIfUnset bot _ _ _
        (gridFaithful_setIfUnset bot _ _ _ h)))

/-- Helper: visiting any list of cells preserves the invariant. -/
lemma gridFaithful_foldl (bot : Nat → Nat → Vec3) (l : List (Nat × Nat)) (g : TopGrid)
    (h : GridFaithful bot g) : GridFaithful bot (l.foldl (visitCell bot) g) := by
  induction l generalizing g with
  | nil => exact h
  | cons c l ih =>
    simp only [List.foldl_cons]
    exact ih _ (gridFaithful_visitCell bot g c h)

/-- Helper: a guarded write populates its own node. -/
lemma setIfUnset_isSome_self (g : TopGrid) (i j : Nat) (v : Vec3) :
    ((setIfUnset g i j v) i j).isSome := by
  simp only [setIfUnset, if_pos (And.intro rfl rfl)]
  by_cases hs : (g i j).isSome
  · rw [if_pos hs]; exact hs
  · rw [if_neg hs]; rfl

/-- Helper: a guarded write keeps every populated node populated. -/
lemma setIfUnset_isSome_mono (g : TopGrid) (i j : Nat) (v : Vec3) (a b : Nat)
    (h : (g a b).isSome) : ((setIfUnset g i j v) a b).isSome := by
  simp only [setIfUnset]
  by_cases hab : a = i ∧ b = j
  · rw [if_pos hab]
    obtain ⟨rfl, rfl⟩ := hab
    rw [if_pos h]
    exact h
  · rw [if_neg hab]
    exact h

/-- Helper: an unconditional write populates its own node. -/
lemma setAlways_isSome_self (g : TopGrid) (i j : Nat) (v : Vec3) :
    ((setAlways g i j v) i j).isSome := by
  simp only [setAlways, if_pos (And.intro rfl rfl)]
  rfl

/-- Helper: an unconditional write keeps every populated node populated. -/
lemma setAlways_isSome_mono (g : TopGrid) (i j : Nat) (v : Vec3) (a b : Nat)
    (h : (g a b).isSome) : ((setAlways g i j v) a b).isSome := by
  simp only [setAlways]
  by_cases hab : a = i ∧ b = j
  · rw [if_pos hab]; rfl
  · rw [if_neg hab]; exact h

/-- Helper: visiting a cell keeps every populated node populated. -/
lemma visitCell_isSome_mono (bot : Nat → Nat → Vec3) (g : TopGrid) (c : Nat × Nat)
    (a b : Nat) (h : (g a b).isSome) : ((visitCell bot g c) a b).isSome := by
  unfold visitCell
  exact setAlways_isSome_mono _ _ _ _ _ _
    (setIfUnset_isSome_mono _ _ _ _ _ _
      (setIfUnset_isSome_mono _ _ _ _ _ _
        (setIfUnset_isSome_mono _ _ _ _ _ _ h)))

/-- Helper: after visiting the cell (x,z), all four of its top-corner nodes
are populated. -/
lemma visitCell_corners_isSome (bot : Nat → Nat → Vec3) (g : TopGrid) (x z : Nat) :
    ((visitCell bot g (x, z)) z x).isSome ∧
    ((visitCell bot g (x, z)) z (x + 1)).isSome ∧
    ((visitCell bot g (x, z)) (z + 1) x).isSome ∧
    ((visitCell bot g (x, z)) (z + 1) (x + 1)).isSome := by
  unfold visitCell
  refine ⟨?_, ?_, ?_, ?_⟩
  · exact setAlways_isSome_mono _ _ _ _ _ _
      (setIfUnset_isSome_mono _ _ _ _ _ _
        (setIfUnset_isSome_mono _ _ _ _ _ _ (setIfUnset_isSome_self _ _ _ _)))
  · exact setAlways_isSome_mono _ _ _ _ _ _
      (setIfUnset_isSome_mono _ _ _ _ _ _ (setIfUnset_isSome_self _ _ _ _))
  · exact setAlways_isSome_mono _ _ _ _ _ _ (setIfUnset_isSome_self _ _ _ _)
  · exact setAlways_isSome_self _ _ _ _

/-- Helper: visiting any list of cells keeps every populated node populated. -/
lemma foldl_isSome_mono (bot : Nat → Nat → Vec3) (l : List (Nat × Nat)) (g : TopGrid)
    (a b : Nat) (h : (g a b).isSome) : ((l.foldl (visitCell bot) g) a b).isSome := by
  induction l generalizing g with
  | nil => exact h
  | cons c l ih =>
    simp only [List.foldl_cons]
    exact ih _ (visitCell_isSome_mono bot g c a b h)

/-- Helper: once the visit order contains the cell (x,z), all four of that
cell's top-corner nodes are populated in the final grid. -/
lemma foldl_visited_isSome (bot : Nat → Nat → Vec3) (l : List (Nat × Nat)) (x z : Nat)
    (hmem : (x, z) ∈ l) (g : TopGrid) (i j : Nat)
    (hi : i = z ∨ i = z + 1) (hj : j = x ∨ j = x + 1) :
    ((l.foldl (visitCell bot) g) i j).isSome := by
  obtain ⟨s, t, rfl⟩ := List.append_of_mem hmem
  rw [List.foldl_append, List.foldl_cons]
  apply foldl_isSome_mono
  have hc := visitCell_corners_isSome bot (s.foldl (visitCell bot) g) x z
  rcases hi with rfl | rfl <;> rcases hj with rfl | rfl
  · exact hc.1
  · exact hc.2.1
  · exact hc.2.2.1
  · exact hc.2.2.2

/-- Helper: membership in the cell visit order. -/
lemma mem_cellList (x z gw gh : Nat) : (x, z) ∈ cellList gw gh ↔ x < gw ∧ z < gh := by
  simp only [cellList, List.mem_flatMap, List.mem_map, List.mem_range, Prod.mk.injEq]
  constructor
  · rintro ⟨z1, hz1, x1, hx1, rfl, rfl⟩
    exact ⟨hx1, hz1⟩
  · rintro ⟨hx, hz⟩
    exact ⟨z, hz, x, hx, rfl, rfl⟩

/-- Helper: the fully built top lattice is totally populated on the node range
and each node holds the lifted bottom node. -/
lemma buildTop_total_eval (bot : Nat → Nat → Vec3) (gw gh : Nat)
    (hgw : 1 ≤ gw) (hgh : 1 ≤ gh) (i j : Nat) (hi : i ≤ gh) (hj : j ≤ gw) :
    buildTop bot gw gh i j = some (liftNode bot i j) := by
  have hmem : (min j (gw - 1), min i (gh - 1)) ∈ cellList gw gh :=
    (mem_cellList _ _ _ _).mpr ⟨by omega, by omega⟩
  have hi2 : i = min i (gh - 1) ∨ i = min i (gh - 1) + 1 := by omega
  have hj2 : j = min j (gw - 1) ∨ j = min j (gw - 1) + 1 := by omega
  have hsome : (buildTop bot gw gh i j).isSome :=
    foldl_visited_isSome bot (cellList gw gh) _ _ hmem _ i j hi2 hj2
  obtain ⟨v, hv⟩ := Option.isSome_iff_exists.mp hsome
  have hnone : GridFaithful bot (fun _ _ => none) := by
    intro a b w hw
    exact absurd hw (by simp)
  have hval := gridFaithful_foldl bot (cellList gw gh) _ hnone i j v hv
  rw [show buildTop bot gw gh i j = (cellList gw gh).foldl (visitCell bot) (fun _ _ => none) i j from rfl] at hv
  rw [show buildTop bot gw gh i j = (cellList gw gh).foldl (visitCell bot) (fun _ _ => none) i j from rfl]
  rw [hv, hval]

/-- C9. Total population of a layer's top lattice: for every layer built over
a grid with gridWidth >= 1 and gridHeight >= 1, after all cells have been
visited every lattice node (i,j) with i <= gridHeight, j <= gridWidth is set
(none is left null), and it holds exactly the bottom node raised by cubeSize —
so the corner reads performed while building the next layer never see an
unset node. -/
theorem top_lattice_total (bot : Nat → Nat → Vec3) (gw gh : Nat)
    (hgw : 1 ≤ gw) (hgh : 1 ≤ gh) (i j : Nat) (hi : i ≤ gh) (hj : j ≤ gw) :
    buildTop bot gw gh i j = some (liftNode bot i j) :=
  buildTop_total_eval bot gw gh hgw hgh i j hi hj

/-- C9 witness: the population theorem applied to a 1x1 grid over the sample
base lattice at node (0,0). -/
theorem top_lattice_total_witness :
    ((1 ≤ 1 ∧ 1 ≤ 1) ∧ (0 ≤ 1 ∧ 0 ≤ 1)) ∧
    buildTop sampleBase 1 1 0 0 = some (liftNode sampleBase 0 0) :=
  ⟨⟨⟨Nat.le_refl 1, Nat.le_refl 1⟩, ⟨Nat.zero_le 1, Nat.zero_le 1⟩⟩,
   top_lattice_total sampleBase 1 1 (Nat.le_refl 1) (Nat.le_refl 1) 0 0
     (Nat.zero_le 1) (Nat.zero_le 1)⟩

/-- C3. Layer-seam invariant: for every layer k and every cell position (x,z)
inside the grid, each of the four top corner coordinates of the cell at (x,z)
in layer k equals the matching bottom corner coordinate of the cell at (x,z)
in layer k+1 — layer k+1's bottom lattice is exactly the top lattice produced
while building layer k, and every writer of a shared top node writes the same
lifted value, so the first-writer-wins population cannot break the seam. -/
theorem layer_seam (base : Nat → Nat → Vec3) (gw gh k x z : Nat)
    (hx : x < gw) (hz : z < gh) (c : Fin 4) :
    cellTopCorner base gw gh k x z c = cellBottomCorner base gw gh (k + 1) x z c := by
  unfold cellTopCorner cellBottomCorner
  have hb : bottomLattice base gw gh (k + 1) (cornerNode x z c).1 (cornerNode x z c).2 =
      (buildTop (bottomLattice base gw gh k) gw gh
        (cornerNode x z c).1 (cornerNode x z c).2).getD ⟨0, 0, 0⟩ := rfl
  rw [hb, buildTop_total_eval (bottomLattice base gw gh k) gw gh (by omega) (by omega)
    (cornerNode x z c).1 (cornerNode x z c).2 ?_ ?_]
  · rfl
  · fin_cases c <;> simp [cornerNode] <;> omega
  · fin_cases c <;> simp [cornerNode] <;> omega

/-- C3 witness: the seam theorem applied on a 1x1 grid at layer 0, cell (0,0),
corner 0, over the sample base lattice. -/
theorem layer_seam_witness :
    ((0 < 1 ∧ 0 < 1) : Prop) ∧
    cellTopCorner sampleBase 1 1 0 0 0 0 = cellBottomCorner sampleBase 1 1 1 0 0 0 :=
  ⟨⟨Nat.zero_lt_one, Nat.zero_lt_one⟩,
   layer_seam sampleBase 1 1 0 0 0 Nat.zero_lt_one Nat.zero_lt_one 0⟩
